import Mathlib

/-!
Verification of `tensorflow/dtensor/python/mesh_util.py`.

The module builds device meshes.  `create_mesh` builds a single-client mesh
from an optional dimension spec, an optional explicit device list and an
optional device type; `create_distributed_mesh` builds a CPU/GPU mesh from
cluster coordinates (global device count, client count, client id) or, for
TPU, delegates to an external topology resolver.

The embedding below mirrors the Python source line by line.  External calls
(device enumeration, environment-derived cluster coordinates, the TPU mesh
resolver) are supplied through an `Env` record, since their code lives
outside this file.  Python exceptions are modelled by `Except PyError`;
numpy `arange(n).reshape(shape)` is modelled by `resolveShape`, which
implements the numpy shape-resolution rules including the single `-1`
wildcard dimension.
-/

namespace MeshUtil

/-- A parsed device reference, the part of `tf.DeviceSpec` this module reads:
the device type string (such as CPU or GPU) and the device index. -/
structure DeviceSpec where
  deviceType : String
  devIndex : Nat
deriving DecidableEq, Repr

/-- Python exceptions that the code in `mesh_util.py` can raise:
its own explicit `ValueError`s (carrying the message), the `IndexError`
from the unguarded `devices[0]` accesses, and the `ValueError` numpy raises
when `arange(n).reshape(shape)` cannot resolve the shape. -/
inductive PyError where
  | valueError : String → PyError
  | indexError : PyError
  | reshapeError : PyError
deriving DecidableEq, Repr

/-- The mesh descriptor handed to the external `dtensor.Mesh` constructor.
`globalShape` is the shape of the `global_device_ids` numpy grid (the mesh
dimension sizes); `globalDeviceIds` is the grid kept in flattened
(row-major) form, which loses no information given `globalShape`. -/
structure Mesh where
  dimNames : List String
  globalShape : List Nat
  globalDeviceIds : List Nat
  localDeviceIds : List Nat
  localDevices : List DeviceSpec
  meshName : String
deriving DecidableEq, Repr

/-- The external runtime surface used by `mesh_util.py`:
`tf_config.list_logical_devices`, `dtensor.num_global_devices`,
`dtensor.num_clients`, `dtensor.client_id`, `dtensor.num_local_devices`,
`dtensor.local_devices` and `tpu_util.create_tpu_mesh`.  All of these live
outside the source file, so they are parameters of the model. -/
structure Env where
  listLogicalDevices : String → List DeviceSpec
  numGlobalDevices : String → Int
  numClients : Int
  clientId : Int
  numLocalDevices : String → Int
  localDevices : String → Int → List DeviceSpec
  createTpuMesh : List String → List Int → String → Mesh

/-- Python `str.upper()` restricted to ASCII, which is all the device type
strings use: uppercase every character.  (Defined over the character list so
that it evaluates by `decide`.) -/
def pyUpper (s : String) : String := ⟨s.data.map Char.toUpper⟩

/-- Product of the known (non `-1`) entries of a requested numpy shape. -/
def knownProd : List Int → Nat
  | [] => 1
  | x :: t => (if x = -1 then 1 else x.toNat) * knownProd t

/-- Substitute `m` for every `-1` entry of a requested numpy shape. -/
def substNegOne : List Int → Nat → List Nat
  | [], _ => []
  | x :: t, m => (if x = -1 then m else x.toNat) :: substNegOne t m

/-- Modelled from the spec: numpy shape resolution for
`np.arange(n).reshape(shape)` (numpy itself is outside the repository).
At most one `-1` entry is allowed and is inferred from the element count;
any other negative entry is an error; otherwise the shape product must
equal `n`.  Returns the resolved (all non-negative) shape, or `none` when
numpy would raise `ValueError`. -/
def resolveShape (n : Nat) (shape : List Int) : Option (List Nat) :=
  if shape.any (fun s => s < -1) then none
  else if 2 ≤ shape.count (-1) then none
  else if shape.count (-1) = 1 then
    if knownProd shape = 0 then none
    else if n % knownProd shape = 0 then
      some (substNegOne shape (n / knownProd shape))
    else none
  else if (shape.map Int.toNat).prod = n then some (shape.map Int.toNat)
  else none

/-- Lines 63-79 of `create_mesh`: resolve the device list and the device
type.  With `devices = None` the devices are all logical devices of the
(defaulted) type.  With an explicit list, `devices[0]` is accessed
unconditionally (IndexError on an empty list), the type defaults to the
first device's type, and a case-insensitive mismatch between the requested
type and the first device's type raises `ValueError`. -/
def resolveDevices (env : Env) (devices : Option (List DeviceSpec))
    (device_type : Option String) : Except PyError (List DeviceSpec × String) :=
  match devices with
  | none =>
      let dt := device_type.getD "CPU"
      .ok (env.listLogicalDevices dt, dt)
  | some ds =>
      match ds with
      | [] => .error .indexError
      | d0 :: _ =>
          let dt := device_type.getD d0.deviceType
          if pyUpper dt ≠ pyUpper d0.deviceType then
            .error (.valueError "Conflicting devices and device_type")
          else .ok (ds, dt)

deriving instance DecidableEq for Except

/-- The outcome of a `create_mesh` call: the returned mesh or the raised
exception, together with the caller-visible state of the `mesh_dims` list
after the call (the function mutates it in place in the single-dimension
`-1` special case; `none` means the caller passed no list). -/
structure MeshOutcome where
  result : Except PyError Mesh
  meshDimsAfter : Option (List (String × Int))
deriving DecidableEq, Repr

/-- Embedding of `create_mesh` (lines 40-102).  After device resolution the
`mesh_dims` default is one dimension named x over all devices, a
single-element `-1` size is rewritten in place to the device count, the
global id grid is `arange(len(devices)).reshape(shape)`, the local ids are
its flattening, and `_print_context` reads `devices[0].device_type`
(IndexError when the resolved device list is empty).

`createMeshDims` is lines 80-84: the `mesh_dims` default and the in-place
rewrite of a single-element `-1` dimension size to the device count. -/
def createMeshDims (mesh_dims : Option (List (String × Int)))
    (ds : List DeviceSpec) : List (String × Int) :=
  match mesh_dims with
  | none => [("x", (ds.length : Int))]
  | some l =>
      match l with
      | [(nm, sz)] => if sz = -1 then [(nm, (ds.length : Int))] else l
      | _ => l

def createMesh (env : Env) (mesh_dims : Option (List (String × Int)))
    (mesh_name : String) (devices : Option (List DeviceSpec))
    (device_type : Option String) : MeshOutcome :=
  match resolveDevices env devices device_type with
  | .error e => ⟨.error e, mesh_dims⟩
  | .ok (ds, _dt) =>
      let dims : List (String × Int) := createMeshDims mesh_dims ds
      let dimsAfter : Option (List (String × Int)) :=
        match mesh_dims with
        | none => none
        | some _ => some dims
      match resolveShape ds.length (dims.map Prod.snd) with
      | none => ⟨.error .reshapeError, dimsAfter⟩
      | some rshape =>
          let mesh : Mesh :=
            ⟨dims.map Prod.fst, rshape, List.range ds.length,
              List.range ds.length, ds, mesh_name⟩
          match ds with
          | [] => ⟨.error .indexError, dimsAfter⟩
          | _ :: _ => ⟨.ok mesh, dimsAfter⟩

/-- Lines 140-159 of `create_distributed_mesh`: resolve
`num_global_devices`, `num_clients` and `client_id` from the arguments or
the environment and run the validation chain, returning the resolved triple
or the first `ValueError`. -/
def cdmValidate (env : Env) (num_global_devices num_clients client_id : Option Int)
    (device_type : String) : Except PyError (Int × Int × Int) :=
  let n := num_global_devices.getD (env.numGlobalDevices device_type)
  if n ≤ 0 then .error (.valueError "num_global_devices must be > 0")
  else
    let c := num_clients.getD env.numClients
    if c ≤ 0 then .error (.valueError "num_clients must be > 0")
    else
      let i := client_id.getD env.clientId
      if i < 0 then .error (.valueError "client_id must be >= 0")
      else if c ≤ i then .error (.valueError "client_id must be < num_clients")
      else if n % c ≠ 0 then
        .error (.valueError "num_global_devices must be divisible by num_clients")
      else .ok (n, c, i)

/-- Lines 160-186 of `create_distributed_mesh`: the CPU/GPU mesh
construction after validation.  `num_local_devices = n // c`; raises when
it exceeds the locally available device count; the local devices are the
first `num_local_devices` of the local device list; the global id grid is
`arange(n).reshape(shape)` and this client's local ids are the slice of its
flattening at offset `num_local_devices * client_id`. -/
def cdmBuild (env : Env) (mesh_dims : List (String × Int)) (mesh_name : String)
    (device_type : String) (n c i : Int) : Except PyError Mesh :=
  let numLocal := n / c
  if env.numLocalDevices device_type < numLocal then
    .error (.valueError "Not enough devices")
  else
    let local_devs := (env.localDevices device_type i).take numLocal.toNat
    match resolveShape n.toNat (mesh_dims.map Prod.snd) with
    | none => .error .reshapeError
    | some rshape =>
        let flattened := List.range n.toNat
        let start := (numLocal * i).toNat
        .ok ⟨mesh_dims.map Prod.fst, rshape, flattened,
          (flattened.drop start).take numLocal.toNat, local_devs, mesh_name⟩

/-- Embedding of `create_distributed_mesh` (lines 105-214).  The CPU/GPU
branch validates and builds; the TPU branch (any letter case) rejects any
explicitly supplied cluster coordinate and otherwise delegates to the
external `tpu_util.create_tpu_mesh`; any other device type raises. -/
def createDistributedMesh (env : Env) (mesh_dims : List (String × Int))
    (mesh_name : String) (num_global_devices num_clients client_id : Option Int)
    (device_type : String) : Except PyError Mesh :=
  if pyUpper device_type = "CPU" ∨ pyUpper device_type = "GPU" then
    match cdmValidate env num_global_devices num_clients client_id device_type with
    | .error e => .error e
    | .ok (n, c, i) => cdmBuild env mesh_dims mesh_name device_type n c i
  else if pyUpper device_type = "TPU" then
    if num_global_devices.isSome then
      .error (.valueError "Do not specify num_global_devices for TPU meshes")
    else if num_clients.isSome then
      .error (.valueError "Do not specify num_clients for TPU meshes")
    else if client_id.isSome then
      .error (.valueError "Do not specify client_id for TPU meshes")
    else
      .ok (env.createTpuMesh (mesh_dims.map Prod.fst) (mesh_dims.map Prod.snd)
        mesh_name)
  else .error (.valueError "Device type is not CPU, GPU or TPU")

/-- A concrete environment with two CPU devices, one client, used by the
witness theorems. -/
def env2 : Env where
  listLogicalDevices := fun _ => [⟨"CPU", 0⟩, ⟨"CPU", 1⟩]
  numGlobalDevices := fun _ => 2
  numClients := 1
  clientId := 0
  numLocalDevices := fun _ => 2
  localDevices := fun _ _ => [⟨"CPU", 0⟩, ⟨"CPU", 1⟩]
  createTpuMesh := fun _ _ _ => ⟨[], [], [], [], [], ""⟩

/-- A concrete environment with no devices at all, for the empty-device
counterexample. -/
def envEmpty : Env where
  listLogicalDevices := fun _ => []
  numGlobalDevices := fun _ => 0
  numClients := 1
  clientId := 0
  numLocalDevices := fun _ => 0
  localDevices := fun _ _ => []
  createTpuMesh := fun _ _ _ => ⟨[], [], [], [], [], ""⟩

/-- Four local CPU devices, for the multi-client witnesses. -/
def devs4 : List DeviceSpec :=
  [⟨"CPU", 0⟩, ⟨"CPU", 1⟩, ⟨"CPU", 2⟩, ⟨"CPU", 3⟩]

/-- A concrete environment for a two-client cluster with eight global and
four local CPU devices, as seen by client 0. -/
def env8 : Env where
  listLogicalDevices := fun _ => devs4
  numGlobalDevices := fun _ => 8
  numClients := 2
  clientId := 0
  numLocalDevices := fun _ => 4
  localDevices := fun _ _ => devs4
  createTpuMesh := fun _ _ _ => ⟨[], [], [], [], [], ""⟩

/-- The mesh `create_distributed_mesh` builds for client 1 of 2 with eight
global devices on one dimension. -/
def mesh84 : Mesh :=
  ⟨["x"], [8], [0, 1, 2, 3, 4, 5, 6, 7], [4, 5, 6, 7], devs4, ""⟩

/-- The mesh the default `create_mesh` call builds in `env2`. -/
def meshCpu2 : Mesh :=
  ⟨["x"], [2], [0, 1], [0, 1], [⟨"CPU", 0⟩, ⟨"CPU", 1⟩], ""⟩

example : resolveShape 6 [2, 3] = some [2, 3] := by decide
example : resolveShape 6 [-1, 3] = some [2, 3] := by decide
example : resolveShape 6 [4] = none := by decide
example : resolveShape 6 [-1, -1] = none := by decide
example : resolveShape 0 [0, 5] = some [0, 5] := by decide
example : resolveShape 0 [2] = none := by decide
example : resolveShape 1 [] = some [] := by decide

example :
    (createMesh env2 none "" none none).result =
      .ok ⟨["x"], [2], [0, 1], [0, 1], [⟨"CPU", 0⟩, ⟨"CPU", 1⟩], ""⟩ := by
  decide

example :
    createDistributedMesh env2 [("x", 2)] "" none none none "CPU" =
      .ok ⟨["x"], [2], [0, 1], [0, 1], [⟨"CPU", 0⟩, ⟨"CPU", 1⟩], ""⟩ := by
  decide

/-- If a shape contains no `-1`, substituting for `-1` is the plain `toNat`
map. -/
lemma substNegOne_of_count_zero {s : List Int} (h : s.count (-1) = 0) (m : Nat) :
    substNegOne s m = s.map Int.toNat := by
  induction s with
  | nil => rfl
  | cons a t ih =>
      rw [List.count_cons] at h
      by_cases ha : a = -1
      · simp [ha] at h
      · have ht : t.count (-1) = 0 := by omega
        simp [substNegOne, ha, ih ht]

/-- If a shape contains no `-1`, its known product is the product of all
entries. -/
lemma knownProd_of_count_zero {s : List Int} (h : s.count (-1) = 0) :
    knownProd s = (s.map Int.toNat).prod := by
  induction s with
  | nil => rfl
  | cons a t ih =>
      rw [List.count_cons] at h
      by_cases ha : a = -1
      · simp [ha] at h
      · have ht : t.count (-1) = 0 := by omega
        simp [knownProd, ha, ih ht]

/-- Product of a shape with exactly one `-1` entry after substituting `m`
for it: `m` times the product of the known entries. -/
lemma substNegOne_prod {s : List Int} (m : Nat) (h : s.count (-1) = 1) :
    (substNegOne s m).prod = m * knownProd s := by
  induction s with
  | nil => simp at h
  | cons a t ih =>
      rw [List.count_cons] at h
      by_cases ha : a = -1
      · have ht : t.count (-1) = 0 := by simp [ha] at h; omega
        simp [substNegOne, knownProd, ha, substNegOne_of_count_zero ht,
          knownProd_of_count_zero ht]
      · have ht : t.count (-1) = 1 := by simp [ha] at h; omega
        simp [substNegOne, knownProd, ha, ih ht]
        ring

/-- Whenever the numpy reshape of `arange n` succeeds, the resolved shape
has product exactly `n` (the element count is preserved). -/
lemma resolveShape_prod {n : Nat} {s : List Int} {r : List Nat}
    (h : resolveShape n s = some r) : r.prod = n := by
  unfold resolveShape at h
  split_ifs at h with h1 h2 h3 h4 h5 h6
  all_goals injection h with h
  · rw [← h, substNegOne_prod _ h3]
    exact Nat.div_mul_cancel (Nat.dvd_of_mod_eq_zero h5)
  · rw [← h]
    exact h6

/-- Dropping `a` elements from `range N` leaves the shifted `range (N - a)`. -/
lemma drop_range_eq (a N : Nat) (h : a ≤ N) :
    (List.range N).drop a = (List.range (N - a)).map (fun j => a + j) := by
  have h3 : List.range N = List.range a ++ (List.range (N - a)).map (fun j => a + j) := by
    have h2 := List.range_add a (N - a)
    have hs : a + (N - a) = N := by omega
    rw [hs] at h2
    simpa using h2
  rw [h3, List.drop_append_of_le_length (by simp)]
  simp

/-- The length-`L` slice of `range N` at offset `a` is the shifted
`range L`, provided the slice fits. -/
lemma slice_range_eq (a L N : Nat) (h : a + L ≤ N) :
    ((List.range N).drop a).take L = (List.range L).map (fun j => a + j) := by
  rw [drop_range_eq a N (by omega), ← List.map_take, List.take_range]
  have : min L (N - a) = L := by omega
  rw [this]

/-- Concatenating the per-client slices in client order rebuilds the full
flattened id range. -/
lemma flatMap_slices (C L : Nat) :
    (List.range C).flatMap (fun k => (List.range L).map (fun j => L * k + j))
      = List.range (C * L) := by
  induction C with
  | zero => simp
  | succ c ih =>
      have hsucc : List.range (c + 1) = List.range c ++ [c] := by
        simpa using List.range_succ (n := c)
      rw [hsucc, List.flatMap_append, ih]
      have hco : (c + 1) * L = c * L + L := by ring
      rw [hco, List.range_add]
      simp [Nat.mul_comm]

/-- The validation chain succeeds on resolved values that satisfy every
guard, returning exactly the resolved triple. -/
lemma cdmValidate_ok (env : Env) (g c i : Option Int) (dt : String)
    (n cc ii : Int)
    (hg : g.getD (env.numGlobalDevices dt) = n)
    (hc : c.getD env.numClients = cc)
    (hi : i.getD env.clientId = ii)
    (hn : 0 < n) (hcc : 0 < cc) (hii : 0 ≤ ii) (hic : ii < cc)
    (hmod : n % cc = 0) :
    cdmValidate env g c i dt = .ok (n, cc, ii) := by
  simp only [cdmValidate, hg, hc, hi]
  rw [if_neg (by omega), if_neg (by omega), if_neg (by omega),
    if_neg (by omega), if_neg (fun hh => hh hmod)]

/-- Inversion of the validation chain: success returns the resolved triple
and all guards hold. -/
lemma cdmValidate_ok_inv {env : Env} {g c i : Option Int} {dt : String}
    {n cc ii : Int} (h : cdmValidate env g c i dt = .ok (n, cc, ii)) :
    n = g.getD (env.numGlobalDevices dt) ∧ cc = c.getD env.numClients ∧
    ii = i.getD env.clientId ∧
    0 < n ∧ 0 < cc ∧ 0 ≤ ii ∧ ii < cc ∧ n % cc = 0 := by
  simp only [cdmValidate] at h
  split_ifs at h with h1 h2 h3 h4 h5
  all_goals injection h with h
  obtain ⟨hg, hrest⟩ := Prod.mk.inj h
  obtain ⟨hc, hi⟩ := Prod.mk.inj hrest
  subst hg hc hi
  exact ⟨rfl, rfl, rfl, by omega, by omega, by omega, by omega, not_not.mp h5⟩

/-- Inversion of the validation chain: every failure is a `ValueError`. -/
lemma cdmValidate_error_inv {env : Env} {g c i : Option Int} {dt : String}
    {e : PyError} (h : cdmValidate env g c i dt = .error e) :
    ∃ s, e = .valueError s := by
  simp only [cdmValidate] at h
  split_ifs at h
  all_goals injection h with h
  all_goals exact ⟨_, h.symm⟩

/-- The CPU/GPU build step succeeds when enough local devices exist and the
reshape resolves, and returns the mesh with this client's contiguous slice
of the flattened id grid. -/
lemma cdmBuild_ok (env : Env) (dims : List (String × Int)) (name dt : String)
    (N C I : Nat)
    (havail : ((N / C : Nat) : Int) ≤ env.numLocalDevices dt)
    (rshape : List Nat)
    (hsh : resolveShape N (dims.map Prod.snd) = some rshape) :
    cdmBuild env dims name dt (N : Int) (C : Int) (I : Int) =
      .ok ⟨dims.map Prod.fst, rshape, List.range N,
        ((List.range N).drop (N / C * I)).take (N / C),
        (env.localDevices dt (I : Int)).take (N / C), name⟩ := by
  have hdiv : (N : Int) / (C : Int) = ((N / C : Nat) : Int) :=
    (Int.ofNat_ediv N C).symm
  simp only [cdmBuild, hdiv]
  rw [if_neg (not_lt.mpr havail)]
  have hmul : ((N / C : Nat) : Int) * (I : Int) = ((N / C * I : Nat) : Int) := by
    push_cast
    ring
  rw [hmul]
  simp only [Int.toNat_natCast, hsh]

/-- Inversion of the CPU/GPU build step: success implies the reshape
resolved and describes the returned mesh exactly. -/
lemma cdmBuild_ok_elim {env : Env} {dims : List (String × Int)}
    {name dt : String} {n c i : Int} {m : Mesh}
    (h : cdmBuild env dims name dt n c i = .ok m) :
    ∃ rshape, resolveShape n.toNat (dims.map Prod.snd) = some rshape ∧
      ¬ env.numLocalDevices dt < n / c ∧
      m = ⟨dims.map Prod.fst, rshape, List.range n.toNat,
        ((List.range n.toNat).drop ((n / c * i).toNat)).take ((n / c).toNat),
        (env.localDevices dt i).take ((n / c).toNat), name⟩ := by
  simp only [cdmBuild] at h
  split_ifs at h with h1
  cases hsh : resolveShape n.toNat (dims.map Prod.snd) with
  | none =>
      rw [hsh] at h
      injection h
  | some rshape =>
      rw [hsh] at h
      injection h with h
      exact ⟨rshape, rfl, h1, h.symm⟩

/-- Inversion of `create_mesh`: a returned mesh comes from a successfully
resolved non-empty device list and a successful reshape, and its id grids
are the full flattened range over all resolved devices. -/
lemma createMesh_ok_elim {env : Env} {md : Option (List (String × Int))}
    {name : String} {devs : Option (List DeviceSpec)} {dt : Option String}
    {m : Mesh} (h : (createMesh env md name devs dt).result = .ok m) :
    ∃ ds dtR rshape, resolveDevices env devs dt = .ok (ds, dtR) ∧
      ds ≠ [] ∧
      resolveShape ds.length ((createMeshDims md ds).map Prod.snd) = some rshape ∧
      m = ⟨(createMeshDims md ds).map Prod.fst, rshape, List.range ds.length,
        List.range ds.length, ds, name⟩ := by
  simp only [createMesh] at h
  cases hrd : resolveDevices env devs dt with
  | error e =>
      rw [hrd] at h
      injection h
  | ok p =>
      obtain ⟨ds, dtR⟩ := p
      rw [hrd] at h
      dsimp only at h
      cases hsh : resolveShape ds.length ((createMeshDims md ds).map Prod.snd) with
      | none =>
          rw [hsh] at h
          injection h
      | some rshape =>
          rw [hsh] at h
          cases ds with
          | nil =>
              injection h
          | cons d tl =>
              injection h with h
              exact ⟨d :: tl, dtR, rshape, rfl, by simp, hsh, h.symm⟩

/-- C1: for a CPU or GPU `create_distributed_mesh` call whose resolved
global device count `N` is divisible by the client count `C`, with a valid
client id `I`, the local device ids of client `I` are the contiguous slice
of the flattened global id grid at offset `(N / C) * I` of length `N / C`
(equivalently the ids `N / C * I, ..., N / C * I + N / C - 1`), and the
client slices concatenated in client order rebuild the full id range
`0 .. N` without overlap. -/
theorem create_distributed_mesh_client_slice
    (env : Env) (dims : List (String × Int)) (name dt : String)
    (N C I : Nat)
    (hdt : pyUpper dt = "CPU" ∨ pyUpper dt = "GPU")
    (hN : 0 < N) (hC : 0 < C) (hI : I < C) (hdvd : C ∣ N)
    (havail : ((N / C : Nat) : Int) ≤ env.numLocalDevices dt)
    (rshape : List Nat)
    (hsh : resolveShape N (dims.map Prod.snd) = some rshape) :
    ∃ m, createDistributedMesh env dims name (some (N : Int)) (some (C : Int))
        (some (I : Int)) dt = .ok m
      ∧ m.localDeviceIds = ((List.range N).drop (N / C * I)).take (N / C)
      ∧ m.localDeviceIds = (List.range (N / C)).map (fun j => N / C * I + j)
      ∧ (List.range C).flatMap
          (fun k => (List.range (N / C)).map (fun j => N / C * k + j))
          = List.range N
      ∧ ((List.range C).flatMap
          (fun k => (List.range (N / C)).map (fun j => N / C * k + j))).Nodup := by
  have hLC : N / C * C = N := Nat.div_mul_cancel hdvd
  have hfits : N / C * I + N / C ≤ N := by
    have hstep : N / C * (I + 1) ≤ N / C * C := Nat.mul_le_mul_left _ (by omega)
    calc N / C * I + N / C = N / C * (I + 1) := by ring
      _ ≤ N / C * C := hstep
      _ = N := hLC
  have hvalid : cdmValidate env (some (N : Int)) (some (C : Int))
      (some (I : Int)) dt = .ok ((N : Int), (C : Int), (I : Int)) := by
    refine cdmValidate_ok env _ _ _ dt _ _ _ rfl rfl rfl ?_ ?_ ?_ ?_ ?_
    · exact_mod_cast hN
    · exact_mod_cast hC
    · exact Int.natCast_nonneg I
    · exact_mod_cast hI
    · have hcast : ((N % C : Nat) : Int) = (N : Int) % (C : Int) :=
        Int.ofNat_emod N C
      rw [← hcast]
      have hz : N % C = 0 := (Nat.div_mul_cancel hdvd) ▸ Nat.mul_mod_left _ _
      exact_mod_cast hz
  have hcall : createDistributedMesh env dims name (some (N : Int))
      (some (C : Int)) (some (I : Int)) dt =
      .ok ⟨dims.map Prod.fst, rshape, List.range N,
        ((List.range N).drop (N / C * I)).take (N / C),
        (env.localDevices dt (I : Int)).take (N / C), name⟩ := by
    unfold createDistributedMesh
    rw [if_pos hdt, hvalid]
    exact cdmBuild_ok env dims name dt N C I havail rshape hsh
  refine ⟨_, hcall, rfl, ?_, ?_, ?_⟩
  · exact slice_range_eq (N / C * I) (N / C) N hfits
  · rw [flatMap_slices C (N / C)]
    congr 1
    rw [Nat.mul_comm]
    exact hLC
  · rw [flatMap_slices C (N / C)]
    exact List.nodup_range _

/-- Witness for C1: four global devices, two clients, client 1 gets the
slice `[2, 3]`, and the two slices rebuild `[0, 1, 2, 3]`. -/
theorem create_distributed_mesh_client_slice_witness :
    ∃ m, createDistributedMesh env2 [("x", ((4 : Nat) : Int))] "" (some ((4 : Nat) : Int))
        (some ((2 : Nat) : Int)) (some ((1 : Nat) : Int)) "CPU" = .ok m
      ∧ m.localDeviceIds = ((List.range 4).drop (4 / 2 * 1)).take (4 / 2)
      ∧ m.localDeviceIds = (List.range (4 / 2)).map (fun j => 4 / 2 * 1 + j)
      ∧ (List.range 2).flatMap
          (fun k => (List.range (4 / 2)).map (fun j => 4 / 2 * k + j))
          = List.range 4
      ∧ ((List.range 2).flatMap
          (fun k => (List.range (4 / 2)).map (fun j => 4 / 2 * k + j))).Nodup :=
  create_distributed_mesh_client_slice env2 [("x", ((4 : Nat) : Int))] "" "CPU"
    4 2 1 (Or.inl (by decide)) (by decide) (by decide) (by decide)
    (by decide) (by decide) [4] (by decide)

/-- C2: whenever a CPU or GPU `create_distributed_mesh` call returns a
mesh, the number of local device ids in it is exactly the resolved global
device count divided by the resolved client count. -/
theorem create_distributed_mesh_local_count
    (env : Env) (dims : List (String × Int)) (name : String)
    (g c i : Option Int) (dt : String) (m : Mesh)
    (hdt : pyUpper dt = "CPU" ∨ pyUpper dt = "GPU")
    (h : createDistributedMesh env dims name g c i dt = .ok m) :
    (m.localDeviceIds.length : Int)
      = g.getD (env.numGlobalDevices dt) / c.getD env.numClients := by
  unfold createDistributedMesh at h
  rw [if_pos hdt] at h
  cases hv : cdmValidate env g c i dt with
  | error e =>
      rw [hv] at h
      injection h
  | ok t =>
      obtain ⟨n, cc, ii⟩ := t
      rw [hv] at h
      dsimp only at h
      obtain ⟨hg, hc, hi, hn, hcc, hii, hic, hmod⟩ := cdmValidate_ok_inv hv
      obtain ⟨rshape, hsh, hnl, hm⟩ := cdmBuild_ok_elim h
      subst hm
      dsimp only
      rw [List.length_take, List.length_drop, List.length_range]
      have hL : n / cc * cc = n :=
        Int.ediv_mul_cancel (Int.dvd_of_emod_eq_zero hmod)
      have hLpos : 0 ≤ n / cc := Int.ediv_nonneg (by omega) (by omega)
      have hfits : n / cc * ii + n / cc ≤ n := by
        calc n / cc * ii + n / cc = n / cc * (ii + 1) := by ring
          _ ≤ n / cc * cc := mul_le_mul_of_nonneg_left (by omega) hLpos
          _ = n := hL
      have h0 : 0 ≤ n / cc * ii := mul_nonneg hLpos hii
      have hmin : min (n / cc).toNat (n.toNat - (n / cc * ii).toNat)
          = (n / cc).toNat := by omega
      rw [hmin, ← hg, ← hc]
      exact Int.toNat_of_nonneg hLpos

/-- Witness for C2: eight global devices and two clients give four local
device ids. -/
theorem create_distributed_mesh_local_count_witness :
    (mesh84.localDeviceIds.length : Int)
      = (some (8 : Int)).getD (env8.numGlobalDevices "CPU")
        / (some (2 : Int)).getD env8.numClients :=
  create_distributed_mesh_local_count env8 [("x", 8)] "" (some 8) (some 2)
    (some 1) "CPU" mesh84 (Or.inl (by decide)) (by decide)

/-- C3: every mesh returned by `create_mesh`, and every mesh returned by
the CPU/GPU branch of `create_distributed_mesh`, has dimension sizes whose
product equals the global device count, and its global device-id grid is
the reshape of the range `0 .. global count` into that shape (flattened, it
is exactly `List.range` of the count). -/
theorem mesh_shape_product_invariant :
    (∀ (env : Env) (md : Option (List (String × Int))) (name : String)
        (devs : Option (List DeviceSpec)) (dt : Option String) (m : Mesh),
        (createMesh env md name devs dt).result = .ok m →
        m.globalShape.prod = m.localDevices.length ∧
        m.globalDeviceIds = List.range m.globalShape.prod) ∧
    (∀ (env : Env) (dims : List (String × Int)) (name : String)
        (g c i : Option Int) (dt : String) (m : Mesh),
        (pyUpper dt = "CPU" ∨ pyUpper dt = "GPU") →
        createDistributedMesh env dims name g c i dt = .ok m →
        (m.globalShape.prod : Int) = g.getD (env.numGlobalDevices dt) ∧
        m.globalDeviceIds = List.range m.globalShape.prod) := by
  constructor
  · intro env md name devs dt m h
    obtain ⟨ds, dtR, rshape, hrd, hne, hsh, hm⟩ := createMesh_ok_elim h
    subst hm
    have hprod : rshape.prod = ds.length := resolveShape_prod hsh
    exact ⟨hprod, by rw [hprod]⟩
  · intro env dims name g c i dt m hdt h
    unfold createDistributedMesh at h
    rw [if_pos hdt] at h
    cases hv : cdmValidate env g c i dt with
    | error e =>
        rw [hv] at h
        injection h
    | ok t =>
        obtain ⟨n, cc, ii⟩ := t
        rw [hv] at h
        dsimp only at h
        obtain ⟨hg, hc, hi, hn, hcc, hii, hic, hmod⟩ := cdmValidate_ok_inv hv
        obtain ⟨rshape, hsh, hnl, hm⟩ := cdmBuild_ok_elim h
        subst hm
        dsimp only
        have hprod : rshape.prod = n.toNat := resolveShape_prod hsh
        refine ⟨?_, by rw [hprod]⟩
        rw [hprod, ← hg]
        exact Int.toNat_of_nonneg (by omega)

/-- Witness for C3: both builders on concrete environments produce meshes
satisfying the shape-product invariant. -/
theorem mesh_shape_product_invariant_witness :
    (meshCpu2.globalShape.prod = meshCpu2.localDevices.length ∧
      meshCpu2.globalDeviceIds = List.range meshCpu2.globalShape.prod) ∧
    ((mesh84.globalShape.prod : Int)
        = (some (8 : Int)).getD (env8.numGlobalDevices "CPU") ∧
      mesh84.globalDeviceIds = List.range mesh84.globalShape.prod) :=
  ⟨mesh_shape_product_invariant.1 env2 none "" none none meshCpu2 (by decide),
    mesh_shape_product_invariant.2 env8 [("x", 8)] "" (some 8) (some 2)
      (some 1) "CPU" mesh84 (Or.inl (by decide)) (by decide)⟩

/-- C4: a CPU or GPU `create_distributed_mesh` call whose resolved values
violate any validation (non-positive global count, non-positive client
count, client id outside `[0, clients)`, or indivisible global count)
returns a `ValueError` and constructs no mesh. -/
theorem create_distributed_mesh_validation_errors
    (env : Env) (dims : List (String × Int)) (name : String)
    (g c i : Option Int) (dt : String)
    (hdt : pyUpper dt = "CPU" ∨ pyUpper dt = "GPU")
    (hbad : g.getD (env.numGlobalDevices dt) ≤ 0 ∨
      c.getD env.numClients ≤ 0 ∨
      i.getD env.clientId < 0 ∨
      c.getD env.numClients ≤ i.getD env.clientId ∨
      g.getD (env.numGlobalDevices dt) % c.getD env.numClients ≠ 0) :
    ∃ s, createDistributedMesh env dims name g c i dt =
      .error (.valueError s) := by
  unfold createDistributedMesh
  rw [if_pos hdt]
  cases hv : cdmValidate env g c i dt with
  | error e =>
      obtain ⟨s, hs⟩ := cdmValidate_error_inv hv
      subst hs
      exact ⟨s, rfl⟩
  | ok t =>
      obtain ⟨n, cc, ii⟩ := t
      obtain ⟨hg, hc, hi, hn, hcc, hii, hic, hmod⟩ := cdmValidate_ok_inv hv
      exfalso
      rw [← hg, ← hc, ← hi] at hbad
      rcases hbad with hb | hb | hb | hb | hb
      · omega
      · omega
      · omega
      · omega
      · exact hb hmod

/-- Witness for C4: a zero resolved global device count raises. -/
theorem create_distributed_mesh_validation_errors_witness :
    ∃ s, createDistributedMesh envEmpty [("x", 1)] "" none none none "CPU" =
      .error (.valueError s) :=
  create_distributed_mesh_validation_errors envEmpty [("x", 1)] "" none none
    none "CPU" (Or.inl (by decide)) (Or.inl (by decide))

/-- C5: `create_mesh` with an explicit non-empty device list and an
explicitly requested device type raises a `ValueError` whenever the
requested type differs (case-insensitively) from the type of the explicit
devices. -/
theorem create_mesh_device_type_mismatch
    (env : Env) (md : Option (List (String × Int))) (name : String)
    (d0 : DeviceSpec) (tl : List DeviceSpec) (dt : String)
    (hmis : pyUpper dt ≠ pyUpper d0.deviceType) :
    (createMesh env md name (some (d0 :: tl)) (some dt)).result =
      .error (.valueError "Conflicting devices and device_type") := by
  have hrd : resolveDevices env (some (d0 :: tl)) (some dt) =
      .error (.valueError "Conflicting devices and device_type") := by
    unfold resolveDevices
    simp only [Option.getD_some]
    rw [if_pos hmis]
  unfold createMesh
  rw [hrd]

/-- Witness for C5: requesting GPU for an explicit CPU device raises. -/
theorem create_mesh_device_type_mismatch_witness :
    (createMesh env2 none "" (some (⟨"CPU", 0⟩ :: [])) (some "GPU")).result =
      .error (.valueError "Conflicting devices and device_type") :=
  create_mesh_device_type_mismatch env2 none "" ⟨"CPU", 0⟩ [] "GPU" (by decide)

/-- C6: a `create_distributed_mesh` call whose device type uppercases to
TPU raises a `ValueError` as soon as any of `num_global_devices`,
`num_clients` or `client_id` is explicitly supplied, and builds no TPU
mesh in that case. -/
theorem create_distributed_mesh_tpu_forbidden_args
    (env : Env) (dims : List (String × Int)) (name : String)
    (g c i : Option Int) (dt : String)
    (hdt : pyUpper dt = "TPU")
    (hsome : g.isSome ∨ c.isSome ∨ i.isSome) :
    ∃ s, createDistributedMesh env dims name g c i dt =
      .error (.valueError s) := by
  unfold createDistributedMesh
  rw [if_neg (by rw [hdt]; decide), if_pos hdt]
  by_cases hg : g.isSome
  · rw [if_pos hg]
    exact ⟨_, rfl⟩
  · rw [if_neg hg]
    by_cases hc : c.isSome
    · rw [if_pos hc]
      exact ⟨_, rfl⟩
    · rw [if_neg hc]
      have hi : i.isSome := by tauto
      rw [if_pos hi]
      exact ⟨_, rfl⟩

/-- Witness for C6: supplying `num_global_devices` for a tpu mesh raises. -/
theorem create_distributed_mesh_tpu_forbidden_args_witness :
    ∃ s, createDistributedMesh env2 [("x", 8)] "" (some 8) none none "tpu" =
      .error (.valueError s) :=
  create_distributed_mesh_tpu_forbidden_args env2 [("x", 8)] "" (some 8)
    none none "tpu" (by decide) (Or.inl (by decide))

/-- C7: every mesh returned by the single-client `create_mesh` has local
device ids equal to the full flattened range `0, 1, ..., n - 1` over the
`n` resolved devices. -/
theorem create_mesh_local_ids_full_range
    (env : Env) (md : Option (List (String × Int))) (name : String)
    (devs : Option (List DeviceSpec)) (dt : Option String) (m : Mesh)
    (h : (createMesh env md name devs dt).result = .ok m) :
    m.localDeviceIds = List.range m.localDevices.length ∧
    m.localDeviceIds = m.globalDeviceIds := by
  obtain ⟨ds, dtR, rshape, hrd, hne, hsh, hm⟩ := createMesh_ok_elim h
  subst hm
  exact ⟨rfl, rfl⟩

/-- Witness for C7: the default call in `env2` assigns local ids `[0, 1]`
over its two resolved devices. -/
theorem create_mesh_local_ids_full_range_witness :
    meshCpu2.localDeviceIds = List.range meshCpu2.localDevices.length ∧
    meshCpu2.localDeviceIds = meshCpu2.globalDeviceIds :=
  create_mesh_local_ids_full_range env2 none "" none none meshCpu2 (by decide)

/-- C8: a CPU or GPU `create_distributed_mesh` call that passes the
coordinate validations but whose local device count (global count divided
by client count) exceeds the locally available device count raises a
`ValueError` before any mesh is constructed. -/
theorem create_distributed_mesh_insufficient_local_devices
    (env : Env) (dims : List (String × Int)) (name : String)
    (g c i : Option Int) (dt : String)
    (hdt : pyUpper dt = "CPU" ∨ pyUpper dt = "GPU")
    (hn : 0 < g.getD (env.numGlobalDevices dt))
    (hcc : 0 < c.getD env.numClients)
    (hii : 0 ≤ i.getD env.clientId)
    (hic : i.getD env.clientId < c.getD env.numClients)
    (hmod : g.getD (env.numGlobalDevices dt) % c.getD env.numClients = 0)
    (hins : env.numLocalDevices dt <
      g.getD (env.numGlobalDevices dt) / c.getD env.numClients) :
    createDistributedMesh env dims name g c i dt =
      .error (.valueError "Not enough devices") := by
  unfold createDistributedMesh
  rw [if_pos hdt,
    cdmValidate_ok env g c i dt _ _ _ rfl rfl rfl hn hcc hii hic hmod]
  have hb : cdmBuild env dims name dt (g.getD (env.numGlobalDevices dt))
      (c.getD env.numClients) (i.getD env.clientId) =
      .error (.valueError "Not enough devices") := by
    simp only [cdmBuild]
    rw [if_pos hins]
  exact hb

/-- Witness for C8: eight global devices over two clients need four local
devices, but only two are available. -/
theorem create_distributed_mesh_insufficient_local_devices_witness :
    createDistributedMesh env2 [("x", 8)] "" (some 8) (some 2) (some 0)
      "CPU" = .error (.valueError "Not enough devices") :=
  create_distributed_mesh_insufficient_local_devices env2 [("x", 8)] ""
    (some 8) (some 2) (some 0) "CPU" (Or.inl (by decide)) (by decide)
    (by decide) (by decide) (by decide) (by decide) (by decide)

/-- After device resolution succeeds, the caller-visible `mesh_dims` list
is the rewritten dims list, whatever happens later in the call. -/
lemma createMesh_dimsAfter_of_ok {env : Env} {devs : Option (List DeviceSpec)}
    {dt : Option String} {ds : List DeviceSpec} {dtR : String}
    (l : List (String × Int)) (name : String)
    (h : resolveDevices env devs dt = .ok (ds, dtR)) :
    (createMesh env (some l) name devs dt).meshDimsAfter
      = some (createMeshDims (some l) ds) := by
  unfold createMesh
  rw [h]
  dsimp only
  cases resolveShape ds.length ((createMeshDims (some l) ds).map Prod.snd) with
  | none => rfl
  | some rshape =>
      cases ds with
      | nil => rfl
      | cons d tl => rfl

/-- Counterexample to C9 as stated: with `mesh_dims = [(x, -1)]`, one
explicit CPU device and requested type GPU, the call raises during device
resolution and the caller's list is NOT overwritten with the resolved
device count (which would be `[(x, 1)]`); it stays `[(x, -1)]`. -/
theorem create_mesh_dims_mutation_cex :
    (createMesh env2 (some [("x", -1)]) "" (some [⟨"CPU", 0⟩])
        (some "GPU")).meshDimsAfter = some [("x", -1)] ∧
    (createMesh env2 (some [("x", -1)]) "" (some [⟨"CPU", 0⟩])
        (some "GPU")).meshDimsAfter ≠ some [("x", 1)] := by
  decide

/-- C9 amended: `create_mesh` mutates its caller's `mesh_dims` argument in
place as follows.  When device resolution succeeds and `mesh_dims` is a
single-element list whose dimension size is `-1`, the element is
overwritten with (same name, resolved device count); for every other
`mesh_dims` shape, and on every call that raises during device resolution,
the caller's list is left unchanged. -/
theorem create_mesh_dims_mutation :
    (∀ (env : Env) (name : String) (devs : Option (List DeviceSpec))
        (dt : Option String) (nm : String) (ds : List DeviceSpec)
        (dtR : String),
        resolveDevices env devs dt = .ok (ds, dtR) →
        (createMesh env (some [(nm, -1)]) name devs dt).meshDimsAfter
          = some [(nm, (ds.length : Int))]) ∧
    (∀ (env : Env) (name : String) (devs : Option (List DeviceSpec))
        (dt : Option String) (l : List (String × Int)),
        (∀ nm : String, l ≠ [(nm, -1)]) →
        (createMesh env (some l) name devs dt).meshDimsAfter = some l) ∧
    (∀ (env : Env) (name : String) (devs : Option (List DeviceSpec))
        (dt : Option String) (l : List (String × Int)) (e : PyError),
        resolveDevices env devs dt = .error e →
        (createMesh env (some l) name devs dt).meshDimsAfter = some l) := by
  refine ⟨?_, ?_, ?_⟩
  · intro env name devs dt nm ds dtR h
    rw [createMesh_dimsAfter_of_ok _ _ h]
    simp [createMeshDims]
  · intro env name devs dt l hnot
    cases hrd : resolveDevices env devs dt with
    | error e =>
        unfold createMesh
        rw [hrd]
    | ok p =>
        obtain ⟨ds, dtR⟩ := p
        rw [createMesh_dimsAfter_of_ok _ _ hrd]
        cases l with
        | nil => rfl
        | cons hd tl =>
            cases tl with
            | nil =>
                obtain ⟨nm, sz⟩ := hd
                have hsz : sz ≠ -1 := by
                  intro hEq
                  subst hEq
                  exact hnot nm rfl
                simp [createMeshDims, hsz]
            | cons hd2 tl2 => rfl
  · intro env name devs dt l e h
    unfold createMesh
    rw [h]

/-- Witness for the amended C9: the `-1` rewrite on a successful default
resolution, an unchanged list for a non `-1` shape, and an unchanged list
when resolution raises on an explicit empty device list. -/
theorem create_mesh_dims_mutation_witness :
    (createMesh env2 (some [("y", -1)]) "" none none).meshDimsAfter
      = some [("y", (2 : Int))] ∧
    (createMesh env2 (some [("y", 3)]) "" none none).meshDimsAfter
      = some [("y", 3)] ∧
    (createMesh env2 (some [("y", -1)]) "" (some []) none).meshDimsAfter
      = some [("y", -1)] :=
  ⟨create_mesh_dims_mutation.1 env2 "" none none "y"
      [⟨"CPU", 0⟩, ⟨"CPU", 1⟩] "CPU" (by decide),
    create_mesh_dims_mutation.2.1 env2 "" none none [("y", 3)]
      (fun nm => by simp),
    create_mesh_dims_mutation.2.2 env2 "" (some []) none [("y", -1)]
      .indexError (by decide)⟩

/-- Counterexample to C10 as stated: with no available devices and an
explicit `mesh_dims = [(x, 2)]`, `create_mesh` does not fail on the
unguarded `devices[0]` access; it raises the numpy reshape `ValueError`
(size 0 cannot be reshaped into shape `(2,)`) before reaching
`_print_context`. -/
theorem create_mesh_empty_devices_cex :
    (createMesh envEmpty (some [("x", 2)]) "" none none).result
      = .error .reshapeError ∧
    PyError.reshapeError ≠ PyError.indexError := by
  decide

/-- C10 amended: when the resolved device list is empty, `create_mesh`
never raises a validation `ValueError` and never handles the case.  With an
explicit empty `devices` list it always fails on the unguarded `devices[0]`
access (IndexError).  With `devices` defaulted it fails either on
`devices[0]` (inside `_print_context`, whenever the reshape of the empty id
range succeeds) or on the numpy reshape `ValueError`; in particular the
default `mesh_dims` always leads to the `devices[0]` failure. -/
theorem create_mesh_empty_devices :
    (∀ (env : Env) (md : Option (List (String × Int))) (name : String)
        (dt : Option String),
        (createMesh env md name (some []) dt).result = .error .indexError) ∧
    (∀ (env : Env) (md : Option (List (String × Int))) (name : String)
        (dt : Option String),
        env.listLogicalDevices (dt.getD "CPU") = [] →
        (createMesh env md name none dt).result = .error .indexError ∨
        (createMesh env md name none dt).result = .error .reshapeError) ∧
    (∀ (env : Env) (name : String) (dt : Option String),
        env.listLogicalDevices (dt.getD "CPU") = [] →
        (createMesh env none name none dt).result = .error .indexError) := by
  have hnone : ∀ (env : Env) (dt : Option String),
      resolveDevices env none dt =
        .ok (env.listLogicalDevices (dt.getD "CPU"), dt.getD "CPU") := by
    intro env dt
    rfl
  refine ⟨?_, ?_, ?_⟩
  · intro env md name dt
    rfl
  · intro env md name dt h
    unfold createMesh
    rw [hnone env dt, h]
    dsimp only
    cases hsh : resolveShape (List.length ([] : List DeviceSpec))
        ((createMeshDims md []).map Prod.snd) with
    | none =>
        right
        rfl
    | some rshape =>
        left
        rfl
  · intro env name dt h
    unfold createMesh
    rw [hnone env dt, h]
    rfl

/-- Witness for the amended C10: the explicit empty list, a defaulted
empty device list with multi-dimensional dims, and the fully defaulted
call. -/
theorem create_mesh_empty_devices_witness :
    (createMesh env2 none "" (some []) none).result = .error .indexError ∧
    ((createMesh envEmpty (some [("x", 1), ("y", 1)]) "" none none).result
        = .error .indexError ∨
      (createMesh envEmpty (some [("x", 1), ("y", 1)]) "" none none).result
        = .error .reshapeError) ∧
    (createMesh envEmpty none "" none none).result = .error .indexError :=
  ⟨create_mesh_empty_devices.1 env2 none "" none,
    create_mesh_empty_devices.2.1 envEmpty (some [("x", 1), ("y", 1)]) ""
      none (by decide),
    create_mesh_empty_devices.2.2 envEmpty "" none (by decide)⟩

end MeshUtil
